import Mathlib

/-!
Verification of the Airbyte base-python entrypoint dispatcher
(`airbyte-integrations/bases/base-python/base_python/entrypoint.py`) and of the
pagination / dependent-stream behaviour specified for the amazon-ads connector
streams (whose implementation is exercised by
`airbyte-integrations/connectors/source-amazon-ads/unit_tests/test_streams.py`).

The entrypoint is embedded as a pure function from an abstract `Source`
implementation and an argument vector to the finite trace of observable events:
messages printed to stdout, log lines, temp-directory lifecycle, and the final
termination (`sys.exit` code, raised exception, or argparse usage error).
-/

namespace Spec2Proof

/- ### Protocol data model (the airbyte_protocol values used by entrypoint.py) -/

/-- Message type tags of the Airbyte protocol, as used by `entrypoint.py`. -/
inductive MsgType
  | SPEC
  | CONNECTION_STATUS
  | CATALOG
  | RECORD
  | STATE
  | LOG
  deriving DecidableEq, Repr

/-- Connection-check status (`Status.SUCCEEDED` / `Status.FAILED`). -/
inductive Status
  | SUCCEEDED
  | FAILED
  deriving DecidableEq, Repr

/-- Opaque connector specification payload (content irrelevant to the dispatcher). -/
structure ConnectorSpecification where
  specId : Nat
  deriving DecidableEq, Repr

/-- Result of `Source.check`: a status and an optional human-readable message. -/
structure AirbyteConnectionStatus where
  status : Status
  message : Option String := none
  deriving DecidableEq, Repr

/-- Opaque catalog payload (content irrelevant to the dispatcher). -/
structure AirbyteCatalog where
  catalogId : Nat
  deriving DecidableEq, Repr

/-- An Airbyte protocol message: a type tag plus at most one payload field;
unset fields are omitted from serialization. -/
structure AirbyteMessage where
  type : MsgType
  spec : Option ConnectorSpecification := none
  connectionStatus : Option AirbyteConnectionStatus := none
  catalog : Option AirbyteCatalog := none
  record : Option Nat := none
  deriving DecidableEq, Repr

/-- The `AirbyteMessage(type=Type.SPEC, spec=...)` constructed at entrypoint.py:91. -/
def specMessage (s : ConnectorSpecification) : AirbyteMessage :=
  { type := MsgType.SPEC, spec := some s }

/-- The CONNECTION_STATUS message constructed at entrypoint.py:116. -/
def connectionStatusMessage (c : AirbyteConnectionStatus) : AirbyteMessage :=
  { type := MsgType.CONNECTION_STATUS, connectionStatus := some c }

/-- The CATALOG message constructed at entrypoint.py:121. -/
def catalogMessage (c : AirbyteCatalog) : AirbyteMessage :=
  { type := MsgType.CATALOG, catalog := some c }

/- ### Observable events of one entrypoint run -/

/-- One observable event of an entrypoint run, in order of occurrence:
temp-dir lifecycle, collaborator invocations, emitted protocol messages,
log lines, and the process termination. `usageErrorExit` is argparse
rejecting the argument vector (usage text on stderr, exit code 2).
`unexpectedCommandReached` marks entry into the final `else` dispatch branch
(entrypoint.py:128-129). -/
inductive Event
  | tempDirCreated
  | configRead (path : String)
  | configWritten (path : String)
  | emitted (m : AirbyteMessage)
  | logged (line : String)
  | unexpectedCommandReached
  | tempDirReleased
  | exited (code : Nat)
  | raised (msg : String)
  | usageErrorExit
  deriving DecidableEq, Repr

/-- How the with-block body terminates: `sys.exit(code)` or a raised exception. -/
inductive Termination
  | exit (code : Nat)
  | raise (msg : String)
  deriving DecidableEq, Repr

/-- The trace event of a termination. -/
def Termination.toEvent : Termination → Event
  | Termination.exit c => Event.exited c
  | Termination.raise m => Event.raised m

/- ### Abstract Source implementation (the collaborator interface of §6) -/

/-- `ConfigContainer` as constructed at entrypoint.py:101-106. Configurations
are opaque (modelled as `Nat`). -/
structure ConfigContainer where
  raw_config : Nat
  rendered_config : Nat
  raw_config_path : String
  rendered_config_path : String
  deriving DecidableEq, Repr

/-- An abstract connector `Source`: the operations entrypoint.py invokes.
Fallible operations return `Except String` (the raised exception's text).
`read` produces the finite prefix of messages the generator yields followed by
an optional exception raised mid-iteration. -/
structure Source where
  specification : ConnectorSpecification
  read_config : String → Except String Nat
  transform_config : Nat → Nat
  check : ConfigContainer → Except String AirbyteConnectionStatus
  discover : ConfigContainer → Except String AirbyteCatalog
  read : ConfigContainer → String → Option String → List AirbyteMessage × Option String

/- ### Argument parsing (entrypoint.py:48-80, argparse) -/

/-- The namespace produced by `main_parser.parse_args`: the selected subcommand
(`dest="command"`, `none` when no subcommand was given) plus the flag values. -/
structure ParsedArgs where
  command : Option String
  config : Option String := none
  catalog : Option String := none
  state : Option String := none
  deriving DecidableEq, Repr

/-- Collect `--flag value` pairs, rejecting (as argparse does) any flag not in
`allowed` and a trailing flag without a value. Abbreviated flags and the
`--flag=value` form are not modelled. -/
def parseFlags (allowed : List String) : List String → Option (List (String × String))
  | [] => some []
  | f :: v :: rest =>
    if f ∈ allowed then (parseFlags allowed rest).map (fun ps => (f, v) :: ps)
    else none
  | [_] => none

/-- Last occurrence of a flag wins, as with argparse's default `store` action. -/
def lastFlag (ps : List (String × String)) (f : String) : Option String :=
  ps.reverse.lookup f

/-- The argparse configuration of entrypoint.py:48-80: subcommands `spec`
(no flags), `check --config`, `discover --config`,
`read --config --catalog [--state]`. A missing required flag or an
unrecognized subcommand is a usage error (`Except.error`); an empty argument
vector parses successfully with `command = none`. -/
def parseArgs : List String → Except Unit ParsedArgs
  | [] => Except.ok { command := none }
  | c :: rest =>
    if c = "spec" then
      match parseFlags [] rest with
      | some _ => Except.ok { command := some "spec" }
      | none => Except.error ()
    else if c = "check" then
      match parseFlags ["--config"] rest with
      | some ps =>
        match lastFlag ps "--config" with
        | some cfg => Except.ok { command := some "check", config := some cfg }
        | none => Except.error ()
      | none => Except.error ()
    else if c = "discover" then
      match parseFlags ["--config"] rest with
      | some ps =>
        match lastFlag ps "--config" with
        | some cfg => Except.ok { command := some "discover", config := some cfg }
        | none => Except.error ()
      | none => Except.error ()
    else if c = "read" then
      match parseFlags ["--config", "--catalog", "--state"] rest with
      | some ps =>
        match lastFlag ps "--config", lastFlag ps "--catalog" with
        | some cfg, some cat =>
          Except.ok { command := some "read", config := some cfg, catalog := some cat,
                      state := lastFlag ps "--state" }
        | _, _ => Except.error ()
      | none => Except.error ()
    else Except.error ()

/- ### The dispatcher (entrypoint.py:48-129) -/

/-- The temporary directory path handed out by `tempfile.TemporaryDirectory()`. -/
def tempDirName : String := "tmpdir"

/-- `os.path.join(temp_dir, "config.json")` (entrypoint.py:97). -/
def renderedPath : String := tempDirName ++ "/config.json"

/-- The `ConfigContainer` built at entrypoint.py:101-106. -/
def mkContainer (source : Source) (configPath : String) (raw_config : Nat) :
    ConfigContainer :=
  { raw_config := raw_config
    rendered_config := source.transform_config raw_config
    raw_config_path := configPath
    rendered_config_path := renderedPath }

/-- The body of the `with tempfile.TemporaryDirectory()` block
(entrypoint.py:89-129): events generated inside the block and how it ends. -/
def commandBody (source : Source) (pa : ParsedArgs) (cmd : String) :
    List Event × Termination :=
  if cmd = "spec" then
    ([Event.emitted (specMessage source.specification)], Termination.exit 0)
  else
    let configPath := pa.config.getD ""
    match source.read_config configPath with
    | Except.error e => ([Event.configRead configPath], Termination.raise e)
    | Except.ok raw_config =>
      let config_container := mkContainer source configPath raw_config
      let preEvents := [Event.configRead configPath, Event.configWritten renderedPath]
      if cmd = "check" then
        match source.check config_container with
        | Except.error e => (preEvents, Termination.raise e)
        | Except.ok check_result =>
          (preEvents ++
            [Event.logged (if check_result.status = Status.SUCCEEDED
                           then "Check succeeded" else "Check failed"),
             Event.emitted (connectionStatusMessage check_result)],
           Termination.exit 0)
      else if cmd = "discover" then
        match source.discover config_container with
        | Except.error e => (preEvents, Termination.raise e)
        | Except.ok catalog =>
          (preEvents ++ [Event.emitted (catalogMessage catalog)], Termination.exit 0)
      else if cmd = "read" then
        match source.read config_container (pa.catalog.getD "") pa.state with
        | (msgs, none) => (preEvents ++ msgs.map Event.emitted, Termination.exit 0)
        | (msgs, some e) => (preEvents ++ msgs.map Event.emitted, Termination.raise e)
      else
        (preEvents ++ [Event.unexpectedCommandReached],
         Termination.raise ("Unexpected command " ++ cmd))

/-- The `with` statement's guarantee: the temporary directory is created on
entry and released on every way out of the block — normal completion, a raised
exception, and `sys.exit` (which raises `SystemExit`) — before the process
terminates. -/
def withTempDir (body : List Event × Termination) : List Event :=
  Event.tempDirCreated :: body.1 ++ [Event.tempDirReleased, body.2.toEvent]

/-- `AirbyteEntrypoint.start` (entrypoint.py:48-129): parse the argument
vector, raise `"No command passed"` when no subcommand was selected, otherwise
dispatch inside the temporary-directory scope. -/
def start (source : Source) (args : List String) : List Event :=
  match parseArgs args with
  | Except.error _ => [Event.usageErrorExit]
  | Except.ok pa =>
    match pa.command with
    | none => [Event.raised "No command passed"]
    | some cmd => withTempDir (commandBody source pa cmd)

/-- The dynamically loaded connector implementation (entrypoint.py:36-39):
the constructed instance together with the result of the
`isinstance(source, Source)` test of entrypoint.py:140. -/
structure LoadedImplementation where
  isSource : Bool
  asSource : Source

/-- `main` (entrypoint.py:136-143): construct the implementation, reject it
before any dispatch when it is not a `Source`, otherwise launch `start`. -/
def main (lo : LoadedImplementation) (argv : List String) : List Event :=
  if lo.isSource then start lo.asSource argv
  else [Event.raised "Source implementation provided does not implement Source class!"]

/- ### Trace projections -/

/-- The message carried by an `emitted` event, if any. -/
def eventMessage : Event → Option AirbyteMessage
  | Event.emitted m => some m
  | _ => none

/-- All messages emitted (printed) during a run, in order. -/
def emittedMessages (tr : List Event) : List AirbyteMessage :=
  tr.filterMap eventMessage

/-- The emitted messages carrying a given type tag, in order. -/
def emittedOfType (t : MsgType) (tr : List Event) : List AirbyteMessage :=
  (emittedMessages tr).filter (fun m => m.type = t)

/- ### Pagination and dependent streams (spec §4.3)

The implementation, `source_amazon_ads/streams.py`, is not under src/ — only
its unit tests (`unit_tests/test_streams.py`) are — so these definitions are
modelled from the spec. -/

/-- Modelled from the spec: the page walk of `PaginationStream.read_records`
(`source_amazon_ads/streams.py`, not under src/). The stream requests pages of
`P` records at increasing offsets; a request at the current offset returns the
next `min P remaining` records of the upstream dataset (the remaining list
`l`); pagination stops after the first page holding fewer than `P` records, so
a page of exactly `P` records always triggers another request. `fuel` bounds
the recursion; `paginatedRead` supplies enough for any dataset. Returns the
records yielded, in order, and the number of page requests issued. -/
def paginationRun {α : Type} (P : Nat) : Nat → List α → List α × Nat
  | 0, _ => ([], 0)
  | fuel + 1, l =>
    if (l.take P).length < P then (l.take P, 1)
    else
      (l.take P ++ (paginationRun P fuel (l.drop P)).1,
       (paginationRun P fuel (l.drop P)).2 + 1)

/-- Modelled from the spec: one full `read_records` run of a
`PaginationStream` over an upstream dataset, with page size `P`. -/
def paginatedRead {α : Type} (dataset : List α) (P : Nat) : List α × Nat :=
  paginationRun P (dataset.length + 1) dataset

/-- Modelled from the spec: a dependent stream's `read_records`
(`source_amazon_ads/streams.py`, not under src/) iterates the upstream records
retained by its filter predicate `keep` and issues one full paginated
sub-extraction per retained record (each parent `b` has child dataset
`childData b`), concatenating the per-parent results in order. -/
def dependentRead {α β : Type} (upstream : List β) (keep : β → Bool)
    (childData : β → List α) (P : Nat) : List α :=
  ((upstream.filter keep).map (fun b => (paginatedRead (childData b) P).1)).flatten

/-- Modelled from the spec: the shared context object of the amazon-ads
streams, caching the upstream (profiles) records once fetched, together with a
count of how many network-backed upstream reads have been performed. -/
structure StreamsContext (β : Type) where
  profiles : Option (List β)
  fetches : Nat
  deriving DecidableEq, Repr

/-- The context at the start of a Source lifetime: nothing cached yet. -/
def emptyContext (β : Type) : StreamsContext β :=
  { profiles := none, fetches := 0 }

/-- Modelled from the spec: access to the upstream records through the shared
context — served from the cache when present, otherwise fetched from the
network exactly once and cached. -/
def getProfiles {β : Type} (upstreamData : List β) (ctx : StreamsContext β) :
    List β × StreamsContext β :=
  match ctx.profiles with
  | some ps => (ps, ctx)
  | none => (upstreamData, { profiles := some upstreamData, fetches := ctx.fetches + 1 })

/-- Modelled from the spec: the upstream (profiles) stream's `read_records`,
which fills the shared context. -/
def upstreamReadRecords {β : Type} (upstreamData : List β)
    (ctx : StreamsContext β) : List β × StreamsContext β :=
  getProfiles upstreamData ctx

/-- Modelled from the spec: a dependent stream's `read_records` against the
shared context — it iterates the cached upstream collection (fetching it only
if no read has happened yet) and never replaces the cache. -/
def dependentReadRecords {α β : Type} (upstreamData : List β) (keep : β → Bool)
    (childData : β → List α) (P : Nat) (ctx : StreamsContext β) :
    List α × StreamsContext β :=
  let res := getProfiles upstreamData ctx
  (dependentRead res.1 keep childData P, res.2)

/-- One `read_records` invocation within a Source lifetime: either the
upstream stream or some dependent stream (with its filter, child datasets and
page size). -/
inductive StreamOp (α β : Type)
  | upstream
  | dependent (keep : β → Bool) (childData : β → List α) (P : Nat)

/-- Run a sequence of `read_records` invocations over the shared context of
one Source lifetime, returning the final context. -/
def runOps {α β : Type} (upstreamData : List β) :
    List (StreamOp α β) → StreamsContext β → StreamsContext β
  | [], ctx => ctx
  | StreamOp.upstream :: rest, ctx =>
    runOps upstreamData rest (upstreamReadRecords upstreamData ctx).2
  | StreamOp.dependent keep childData P :: rest, ctx =>
    runOps upstreamData rest (dependentReadRecords upstreamData keep childData P ctx).2

/- ### Concrete instances used as witnesses -/

/-- A concrete connection-check failure result. -/
def demoFailedStatus : AirbyteConnectionStatus :=
  { status := Status.FAILED, message := some "could not connect" }

/-- A concrete `Source` implementation used to evaluate the theorems on
closed inputs. Its check always fails, its read yields two RECORD messages. -/
def demoSource : Source :=
  { specification := { specId := 0 }
    read_config := fun _ => Except.ok 7
    transform_config := fun n => n + 1
    check := fun _ => Except.ok demoFailedStatus
    discover := fun _ => Except.ok { catalogId := 3 }
    read := fun _ _ _ =>
      ([{ type := MsgType.RECORD, record := some 1 },
        { type := MsgType.RECORD, record := some 2 }], none) }

/- ### Helper lemmas -/

/-- With positive page size and enough fuel, the page walk returns the whole
dataset and issues `⌊K/P⌋ + 1` requests. -/
theorem paginationRun_eq {α : Type} (P : Nat) (hP : 1 ≤ P) :
    ∀ (fuel : Nat) (l : List α), l.length < fuel →
      paginationRun P fuel l = (l, l.length / P + 1) := by
  intro fuel
  induction fuel with
  | zero => intro l h; exact absurd h (Nat.not_lt_zero _)
  | succ fuel ih =>
    intro l h
    by_cases hlt : (l.take P).length < P
    · have hlen : l.length < P := by
        rw [List.length_take] at hlt; omega
      rw [paginationRun, if_pos hlt, List.take_of_length_le (Nat.le_of_lt hlen),
        Nat.div_eq_of_lt hlen]
    · have hle : P ≤ l.length := by
        rw [List.length_take] at hlt; omega
      have hrec := ih (l.drop P) (by rw [List.length_drop]; omega)
      rw [paginationRun, if_neg hlt, hrec]
      simp only [List.take_append_drop, List.length_drop]
      rw [Nat.div_eq_sub_div (by omega : 0 < P) hle]

/-- `paginatedRead` always has enough fuel. -/
theorem paginatedRead_eq {α : Type} (dataset : List α) (P : Nat) (hP : 1 ≤ P) :
    paginatedRead dataset P = (dataset, dataset.length / P + 1) :=
  paginationRun_eq P hP (dataset.length + 1) dataset (Nat.lt_succ_self _)

/-- The request-count formula of the spec equals `⌊K/P⌋ + 1` in both cases
(`(K + P - 1) / P` is `⌈K/P⌉` for `P ≥ 1`). -/
theorem ceil_requests (K P : Nat) (hP : 1 ≤ P) :
    (if P ∣ K then (K + 1 + (P - 1)) / P else (K + (P - 1)) / P) = K / P + 1 := by
  by_cases hdvd : P ∣ K
  · rw [if_pos hdvd, (by omega : K + 1 + (P - 1) = K + P), Nat.add_div_right _ (by omega)]
  · rw [if_neg hdvd]
    have hK : 1 ≤ K := by
      rcases Nat.eq_zero_or_pos K with h0 | h1
      · exact absurd (h0 ▸ Nat.dvd_zero P) hdvd
      · exact h1
    rw [(by omega : K + (P - 1) = (K - 1) + P), Nat.add_div_right _ (by omega)]
    have hsucc := Nat.succ_div (K - 1) P
    rw [(by omega : K - 1 + 1 = K), if_neg hdvd] at hsucc
    omega

/-- Emission events extracted from a mapped message list give back the list. -/
theorem filterMap_eventMessage_map_emitted (msgs : List AirbyteMessage) :
    List.filterMap (eventMessage ∘ Event.emitted) msgs = msgs := by
  induction msgs with
  | nil => rfl
  | cons m t ih => simp [List.filterMap_cons, eventMessage, Function.comp, ih]

/-- If a function is constantly `C` on a list, the sum of its map is
`length * C`. -/
theorem sum_map_const_on {β : Type} (l : List β) (f : β → Nat) (C : Nat)
    (h : ∀ b ∈ l, f b = C) : (l.map f).sum = l.length * C := by
  induction l with
  | nil => simp
  | cons a t ih =>
    simp only [List.map_cons, List.sum_cons, List.length_cons]
    rw [h a (List.mem_cons_self a t), ih (fun b hb => h b (List.mem_cons_of_mem a hb))]
    ring

/-- Once the shared context already caches the upstream collection, any
further sequence of stream reads leaves the context untouched. -/
theorem runOps_preserve {α β : Type} (upstreamData : List β)
    (ops : List (StreamOp α β)) :
    ∀ ctx : StreamsContext β, ctx.profiles = some upstreamData →
      runOps upstreamData ops ctx = ctx := by
  induction ops with
  | nil => intro ctx _; rfl
  | cons op rest ih =>
    intro ctx h
    cases op with
    | upstream =>
      show runOps upstreamData rest (upstreamReadRecords upstreamData ctx).2 = ctx
      have h2 : (upstreamReadRecords upstreamData ctx).2 = ctx := by
        simp [upstreamReadRecords, getProfiles, h]
      rw [h2]; exact ih ctx h
    | dependent keep childData P =>
      show runOps upstreamData rest
          (dependentReadRecords upstreamData keep childData P ctx).2 = ctx
      have h2 : (dependentReadRecords upstreamData keep childData P ctx).2 = ctx := by
        simp [dependentReadRecords, getProfiles, h]
      rw [h2]; exact ih ctx h

/- ### Claims C2 to C4 (spec-modelled stream behaviour) -/

/-- Claim C2: for every upstream dataset of size `K` and page size `P ≥ 1`,
one full `read_records` run of a `PaginationStream` yields exactly the `K`
dataset records, and issues `⌈(K+1)/P⌉` page requests when `P` divides `K`
(the extra request confirms emptiness) and `⌈K/P⌉` requests otherwise — so a
page of exactly `P` records never terminates pagination. -/
theorem pagination_completeness {α : Type} (dataset : List α) (P : Nat)
    (hP : 1 ≤ P) :
    (paginatedRead dataset P).1 = dataset ∧
    (paginatedRead dataset P).2 =
      (if P ∣ dataset.length then (dataset.length + 1 + (P - 1)) / P
       else (dataset.length + (P - 1)) / P) := by
  rw [paginatedRead_eq dataset P hP, ceil_requests dataset.length P hP]
  exact ⟨rfl, rfl⟩

/-- Witness for C2: dataset of size 4 with page size 2 (an exact multiple, as
in the pagination unit test) yields all 4 records in 3 requests. -/
theorem pagination_completeness_witness :
    (paginatedRead [10, 11, 12, 13] 2).1 = [10, 11, 12, 13] ∧
    (paginatedRead [10, 11, 12, 13] 2).2 =
      (if 2 ∣ ([10, 11, 12, 13] : List Nat).length
       then (([10, 11, 12, 13] : List Nat).length + 1 + (2 - 1)) / 2
       else (([10, 11, 12, 13] : List Nat).length + (2 - 1)) / 2) :=
  pagination_completeness [10, 11, 12, 13] 2 (by decide)

/-- Claim C3: if the dependent stream's filter predicate retains `U` upstream
records and every retained record independently yields a full paginated child
result of size `C`, one full `read_records` run of the dependent stream
yields exactly `U * C` records. -/
theorem dependent_fanout {α β : Type} (upstream : List β) (keep : β → Bool)
    (childData : β → List α) (P C : Nat) (hP : 1 ≤ P)
    (hC : ∀ b ∈ upstream.filter keep, (childData b).length = C) :
    (dependentRead upstream keep childData P).length =
      (upstream.filter keep).length * C := by
  rw [dependentRead, List.length_flatten, List.map_map]
  apply sum_map_const_on
  intro b hb
  show ((paginatedRead (childData b) P).1).length = C
  rw [paginatedRead_eq (childData b) P hP]
  exact hC b hb

/-- Witness for C3: 4 retained parents, each with a child dataset of 4
records read at page size 2, give 16 dependent records (the
4-vendors-times-4-campaigns scenario of the unit tests). -/
theorem dependent_fanout_witness :
    (dependentRead [0, 1, 2, 3] (fun _ => true) (fun _ => [20, 21, 22, 23]) 2).length =
      (([0, 1, 2, 3] : List Nat).filter (fun _ => true)).length * 4 :=
  dependent_fanout [0, 1, 2, 3] (fun _ => true) (fun _ => [20, 21, 22, 23]) 2 4
    (by decide) (fun b _ => rfl)

/-- Claim C4: over one Source lifetime, any non-empty sequence of stream
reads — the upstream stream and/or any number of dependent streams, in any
order — performs the upstream network-backed fetch exactly once, leaves the
shared context caching exactly the upstream collection, and a dependent
stream never mutates an already-populated cache. -/
theorem upstream_single_read {α β : Type} (upstreamData : List β)
    (ops : List (StreamOp α β)) (hne : ops ≠ []) :
    (runOps upstreamData ops (emptyContext β)).fetches = 1 ∧
    (runOps upstreamData ops (emptyContext β)).profiles = some upstreamData ∧
    (∀ (keep : β → Bool) (childData : β → List α) (P : Nat)
       (ctx : StreamsContext β) (ps : List β), ctx.profiles = some ps →
      (dependentReadRecords upstreamData keep childData P ctx).2 = ctx) := by
  have hmain : runOps upstreamData ops (emptyContext β) =
      { profiles := some upstreamData, fetches := 1 } := by
    obtain ⟨op, rest, rfl⟩ := List.exists_cons_of_ne_nil hne
    cases op with
    | upstream =>
      show runOps upstreamData rest (upstreamReadRecords upstreamData (emptyContext β)).2 = _
      rw [show (upstreamReadRecords upstreamData (emptyContext β)).2 =
            ({ profiles := some upstreamData, fetches := 1 } : StreamsContext β) from rfl]
      exact runOps_preserve upstreamData rest _ rfl
    | dependent keep childData P =>
      show runOps upstreamData rest
          (dependentReadRecords upstreamData keep childData P (emptyContext β)).2 = _
      rw [show (dependentReadRecords upstreamData keep childData P (emptyContext β)).2 =
            ({ profiles := some upstreamData, fetches := 1 } : StreamsContext β) from rfl]
      exact runOps_preserve upstreamData rest _ rfl
  refine ⟨by rw [hmain], by rw [hmain], ?_⟩
  intro keep childData P ctx ps h
  simp [dependentReadRecords, getProfiles, h]

/-- Witness for C4: one upstream read followed by two dependent reads still
performs exactly one upstream fetch. -/
theorem upstream_single_read_witness :
    (runOps [5, 6]
        [StreamOp.upstream,
         StreamOp.dependent (fun _ => true) (fun _ => [1]) 1,
         StreamOp.dependent (fun b => decide (b = 5)) (fun _ => [1, 2]) 1]
        (emptyContext Nat)).fetches = 1 :=
  (upstream_single_read [5, 6] _ (List.cons_ne_nil _ _)).1

/- ### Claims about the entrypoint dispatcher -/

/-- Claim C1: for every accepted `check` invocation whose configuration loads
and whose `Source.check` returns a result, the process emits exactly one
CONNECTION_STATUS message carrying that result (FAILED included), raises no
exception, and exits with code 0 — the failure is visible only in the
payload. -/
theorem check_exits_zero (source : Source) (args : List String) (pa : ParsedArgs)
    (hparse : parseArgs args = Except.ok pa) (hcmd : pa.command = some "check")
    (raw : Nat) (hread : source.read_config (pa.config.getD "") = Except.ok raw)
    (res : AirbyteConnectionStatus)
    (hcheck : source.check (mkContainer source (pa.config.getD "") raw) = Except.ok res) :
    start source args =
      [Event.tempDirCreated, Event.configRead (pa.config.getD ""),
       Event.configWritten renderedPath,
       Event.logged (if res.status = Status.SUCCEEDED
                     then "Check succeeded" else "Check failed"),
       Event.emitted (connectionStatusMessage res),
       Event.tempDirReleased, Event.exited 0] ∧
    emittedOfType MsgType.CONNECTION_STATUS (start source args) =
      [connectionStatusMessage res] ∧
    (∀ e, Event.raised e ∉ start source args) := by
  have htr : start source args =
      [Event.tempDirCreated, Event.configRead (pa.config.getD ""),
       Event.configWritten renderedPath,
       Event.logged (if res.status = Status.SUCCEEDED
                     then "Check succeeded" else "Check failed"),
       Event.emitted (connectionStatusMessage res),
       Event.tempDirReleased, Event.exited 0] := by
    simp [start, hparse, hcmd, withTempDir, commandBody, hread, hcheck,
      Termination.toEvent]
  refine ⟨htr, ?_, ?_⟩
  · rw [htr]
    simp [emittedOfType, emittedMessages, eventMessage, List.filterMap_cons,
      connectionStatusMessage]
  · intro e
    rw [htr]
    simp

/-- Witness for C1 on the demo source, whose check always returns FAILED. -/
theorem check_exits_zero_witness :
    start demoSource ["check", "--config", "cfg.json"] =
      [Event.tempDirCreated, Event.configRead "cfg.json",
       Event.configWritten renderedPath,
       Event.logged (if demoFailedStatus.status = Status.SUCCEEDED
                     then "Check succeeded" else "Check failed"),
       Event.emitted (connectionStatusMessage demoFailedStatus),
       Event.tempDirReleased, Event.exited 0] ∧
    emittedOfType MsgType.CONNECTION_STATUS
        (start demoSource ["check", "--config", "cfg.json"]) =
      [connectionStatusMessage demoFailedStatus] ∧
    (∀ e, Event.raised e ∉ start demoSource ["check", "--config", "cfg.json"]) :=
  check_exits_zero demoSource ["check", "--config", "cfg.json"]
    { command := some "check", config := some "cfg.json" } rfl rfl
    7 rfl demoFailedStatus rfl

/-- Claim C5: for every accepted `read` invocation whose configuration loads
and whose generator yields its messages without raising, the run emits
exactly one line per produced message, in generation order, and exits with
code 0 once the sequence is exhausted. -/
theorem read_streams_messages (source : Source) (args : List String) (pa : ParsedArgs)
    (hparse : parseArgs args = Except.ok pa) (hcmd : pa.command = some "read")
    (raw : Nat) (hread : source.read_config (pa.config.getD "") = Except.ok raw)
    (msgs : List AirbyteMessage)
    (hgen : source.read (mkContainer source (pa.config.getD "") raw)
              (pa.catalog.getD "") pa.state = (msgs, none)) :
    start source args =
      [Event.tempDirCreated, Event.configRead (pa.config.getD ""),
       Event.configWritten renderedPath] ++ msgs.map Event.emitted ++
      [Event.tempDirReleased, Event.exited 0] ∧
    emittedMessages (start source args) = msgs ∧
    (∀ e, Event.raised e ∉ start source args) := by
  have htr : start source args =
      [Event.tempDirCreated, Event.configRead (pa.config.getD ""),
       Event.configWritten renderedPath] ++ msgs.map Event.emitted ++
      [Event.tempDirReleased, Event.exited 0] := by
    simp [start, hparse, hcmd, withTempDir, commandBody, hread, hgen,
      Termination.toEvent]
  refine ⟨htr, ?_, ?_⟩
  · rw [htr]
    simp [emittedMessages, List.filterMap_append, List.filterMap_cons, eventMessage,
      filterMap_eventMessage_map_emitted]
  · intro e
    rw [htr]
    simp [List.mem_map]

/-- Witness for C5: the demo source's generator yields two RECORD messages;
both are emitted in order and the run exits 0. -/
theorem read_streams_messages_witness :
    start demoSource ["read", "--config", "c.json", "--catalog", "cat.json"] =
      [Event.tempDirCreated, Event.configRead "c.json",
       Event.configWritten renderedPath] ++
      ([{ type := MsgType.RECORD, record := some 1 },
        { type := MsgType.RECORD, record := some 2 }] : List AirbyteMessage).map
        Event.emitted ++
      [Event.tempDirReleased, Event.exited 0] ∧
    emittedMessages (start demoSource ["read", "--config", "c.json", "--catalog", "cat.json"]) =
      [{ type := MsgType.RECORD, record := some 1 },
       { type := MsgType.RECORD, record := some 2 }] ∧
    (∀ e, Event.raised e ∉
      start demoSource ["read", "--config", "c.json", "--catalog", "cat.json"]) :=
  read_streams_messages demoSource ["read", "--config", "c.json", "--catalog", "cat.json"]
    { command := some "read", config := some "c.json", catalog := some "cat.json" }
    rfl rfl 7 rfl _ rfl

/-- Claim C6: every accepted `spec` invocation emits exactly one SPEC message
(built from the source's specification) and exits 0, and neither the
config-loading step nor the rendered-config write is ever executed — in
particular `spec` parses without any `--config` flag. -/
theorem spec_emits_one_message (source : Source) (args : List String)
    (pa : ParsedArgs)
    (hparse : parseArgs args = Except.ok pa) (hcmd : pa.command = some "spec") :
    start source args =
      [Event.tempDirCreated, Event.emitted (specMessage source.specification),
       Event.tempDirReleased, Event.exited 0] ∧
    emittedOfType MsgType.SPEC (start source args) =
      [specMessage source.specification] ∧
    (∀ p, Event.configRead p ∉ start source args) ∧
    (∀ p, Event.configWritten p ∉ start source args) := by
  have htr : start source args =
      [Event.tempDirCreated, Event.emitted (specMessage source.specification),
       Event.tempDirReleased, Event.exited 0] := by
    simp [start, hparse, hcmd, withTempDir, commandBody, Termination.toEvent]
  refine ⟨htr, ?_, ?_, ?_⟩
  · rw [htr]
    simp [emittedOfType, emittedMessages, eventMessage, List.filterMap_cons,
      specMessage]
  · intro p; rw [htr]; simp
  · intro p; rw [htr]; simp

/-- Witness for C6: `["spec"]` — with no configuration flag at all — is
accepted and emits the single SPEC message. -/
theorem spec_emits_one_message_witness :
    start demoSource ["spec"] =
      [Event.tempDirCreated, Event.emitted (specMessage demoSource.specification),
       Event.tempDirReleased, Event.exited 0] ∧
    emittedOfType MsgType.SPEC (start demoSource ["spec"]) =
      [specMessage demoSource.specification] ∧
    (∀ p, Event.configRead p ∉ start demoSource ["spec"]) ∧
    (∀ p, Event.configWritten p ∉ start demoSource ["spec"]) :=
  spec_emits_one_message demoSource ["spec"] { command := some "spec" } rfl rfl

/-- Claim C7 counterexample: with the empty argument vector (no subcommand),
the dispatcher does not fail through an argument-parsing usage error —
parsing succeeds with no command selected, and `start` raises the
`"No command passed"` exception instead. -/
theorem usage_error_counterexample :
    start demoSource [] ≠ [Event.usageErrorExit] ∧
    start demoSource [] = [Event.raised "No command passed"] :=
  ⟨by decide, by decide⟩

/-- Claim C7 (amended): an unrecognized subcommand or a missing required flag
fails through an argument-parsing usage error, while a missing subcommand is
accepted by the parser and fails through the raised `"No command passed"`
exception; in every such case no protocol message is emitted and the run
never exits with code 0. -/
theorem usage_error_amended (source : Source) (args : List String)
    (h : parseArgs args = Except.error () ∨
         ∃ pa, parseArgs args = Except.ok pa ∧ pa.command = none) :
    (∀ m, Event.emitted m ∉ start source args) ∧
    Event.exited 0 ∉ start source args ∧
    (parseArgs args = Except.error () → start source args = [Event.usageErrorExit]) ∧
    (∀ pa, parseArgs args = Except.ok pa → pa.command = none →
      start source args = [Event.raised "No command passed"]) := by
  rcases h with h | ⟨pa, hok, hnone⟩
  · have hs : start source args = [Event.usageErrorExit] := by
      simp [start, h]
    refine ⟨?_, ?_, fun _ => hs, ?_⟩
    · intro m; rw [hs]; simp
    · rw [hs]; simp
    · intro pa hok _
      rw [h] at hok
      exact Except.noConfusion hok
  · have hs : start source args = [Event.raised "No command passed"] := by
      simp [start, hok, hnone]
    refine ⟨?_, ?_, ?_, fun _ _ _ => hs⟩
    · intro m; rw [hs]; simp
    · rw [hs]; simp
    · intro herr
      rw [hok] at herr
      exact Except.noConfusion herr

/-- Witness for C7 (amended) at the unrecognized subcommand `"frobnicate"`. -/
theorem usage_error_amended_witness :
    (∀ m, Event.emitted m ∉ start demoSource ["frobnicate"]) ∧
    Event.exited 0 ∉ start demoSource ["frobnicate"] ∧
    (parseArgs ["frobnicate"] = Except.error () →
      start demoSource ["frobnicate"] = [Event.usageErrorExit]) ∧
    (∀ pa, parseArgs ["frobnicate"] = Except.ok pa → pa.command = none →
      start demoSource ["frobnicate"] = [Event.raised "No command passed"]) :=
  usage_error_amended demoSource ["frobnicate"] (Or.inl rfl)

/-- Claim C8: whenever a subcommand is dispatched, the temporary working area
is created on entry and released on every exit path — the trace always ends
with the release event immediately followed by the termination event, be the
termination a (possibly early) `sys.exit` or a propagating exception. -/
theorem tempdir_always_released (source : Source) (args : List String)
    (pa : ParsedArgs) (cmd : String)
    (hparse : parseArgs args = Except.ok pa) (hcmd : pa.command = some cmd) :
    start source args =
      Event.tempDirCreated :: (commandBody source pa cmd).1 ++
        [Event.tempDirReleased, (commandBody source pa cmd).2.toEvent] ∧
    Event.tempDirReleased ∈ start source args ∧
    (∀ c, (commandBody source pa cmd).2 = Termination.exit c →
      start source args =
        Event.tempDirCreated :: (commandBody source pa cmd).1 ++
          [Event.tempDirReleased, Event.exited c]) ∧
    (∀ e, (commandBody source pa cmd).2 = Termination.raise e →
      start source args =
        Event.tempDirCreated :: (commandBody source pa cmd).1 ++
          [Event.tempDirReleased, Event.raised e]) := by
  have hs : start source args =
      Event.tempDirCreated :: (commandBody source pa cmd).1 ++
        [Event.tempDirReleased, (commandBody source pa cmd).2.toEvent] := by
    simp [start, hparse, hcmd, withTempDir]
  refine ⟨hs, ?_, ?_, ?_⟩
  · rw [hs]; simp
  · intro c hc; rw [hs, hc]; rfl
  · intro e he; rw [hs, he]; rfl

/-- Witness for C8 on a `discover` run of the demo source. -/
theorem tempdir_always_released_witness :
    start demoSource ["discover", "--config", "c.json"] =
      Event.tempDirCreated ::
        (commandBody demoSource
          { command := some "discover", config := some "c.json" } "discover").1 ++
        [Event.tempDirReleased,
         (commandBody demoSource
           { command := some "discover", config := some "c.json" } "discover").2.toEvent] ∧
    Event.tempDirReleased ∈ start demoSource ["discover", "--config", "c.json"] ∧
    (∀ c, (commandBody demoSource
        { command := some "discover", config := some "c.json" } "discover").2 =
          Termination.exit c →
      start demoSource ["discover", "--config", "c.json"] =
        Event.tempDirCreated ::
          (commandBody demoSource
            { command := some "discover", config := some "c.json" } "discover").1 ++
          [Event.tempDirReleased, Event.exited c]) ∧
    (∀ e, (commandBody demoSource
        { command := some "discover", config := some "c.json" } "discover").2 =
          Termination.raise e →
      start demoSource ["discover", "--config", "c.json"] =
        Event.tempDirCreated ::
          (commandBody demoSource
            { command := some "discover", config := some "c.json" } "discover").1 ++
          [Event.tempDirReleased, Event.raised e]) :=
  tempdir_always_released demoSource ["discover", "--config", "c.json"]
    { command := some "discover", config := some "c.json" } "discover" rfl rfl

/-- Every successfully parsed argument vector selects either no command or
one of the four declared subcommands. -/
theorem parseArgs_command (args : List String) (pa : ParsedArgs)
    (hparse : parseArgs args = Except.ok pa) :
    pa.command = none ∨ pa.command = some "spec" ∨ pa.command = some "check" ∨
    pa.command = some "discover" ∨ pa.command = some "read" := by
  cases args with
  | nil =>
    simp only [parseArgs, Except.ok.injEq] at hparse
    subst hparse
    exact Or.inl rfl
  | cons a rest =>
    simp only [parseArgs] at hparse
    repeat' split at hparse
    all_goals
      first
        | exact Except.noConfusion hparse
        | (simp only [Except.ok.injEq] at hparse; subst hparse; simp)

/-- Inside an accepted dispatch, the events generated by the with-block body
never include entry into the "Unexpected command" branch. -/
theorem marker_not_in_body (source : Source) (pa : ParsedArgs) (c : String)
    (hc : c = "spec" ∨ c = "check" ∨ c = "discover" ∨ c = "read") :
    Event.unexpectedCommandReached ∉ (commandBody source pa c).1 := by
  rcases hc with rfl | rfl | rfl | rfl
  · simp [commandBody]
  · rcases hr : source.read_config (pa.config.getD "") with e | raw
    · simp [commandBody, hr]
    · rcases hch : source.check (mkContainer source (pa.config.getD "") raw)
        with e | res <;>
        simp [commandBody, hr, hch]
  · rcases hr : source.read_config (pa.config.getD "") with e | raw
    · simp [commandBody, hr]
    · rcases hd : source.discover (mkContainer source (pa.config.getD "") raw)
        with e | cat <;>
        simp [commandBody, hr, hd]
  · rcases hr : source.read_config (pa.config.getD "") with e | raw
    · simp [commandBody, hr]
    · rcases hg : source.read (mkContainer source (pa.config.getD "") raw)
          (pa.catalog.getD "") pa.state with ⟨msgs, err⟩
      cases err <;> simp [commandBody, hr, hg, List.mem_map]

/-- Claim C9: every argument vector the parser accepts with a subcommand
selected yields one of `spec`, `check`, `discover`, `read` as the parsed
command, so the final dispatch branch raising "Unexpected command" is
unreachable: no accepted invocation's trace enters it. -/
theorem unexpected_command_unreachable (source : Source) (args : List String)
    (pa : ParsedArgs) (c : String)
    (hparse : parseArgs args = Except.ok pa) (hcmd : pa.command = some c) :
    (c = "spec" ∨ c = "check" ∨ c = "discover" ∨ c = "read") ∧
    Event.unexpectedCommandReached ∉ start source args := by
  have hc : c = "spec" ∨ c = "check" ∨ c = "discover" ∨ c = "read" := by
    rcases parseArgs_command args pa hparse with h | h | h | h | h <;> rw [hcmd] at h
    · exact Option.noConfusion h
    · exact Or.inl (Option.some.inj h)
    · exact Or.inr (Or.inl (Option.some.inj h))
    · exact Or.inr (Or.inr (Or.inl (Option.some.inj h)))
    · exact Or.inr (Or.inr (Or.inr (Option.some.inj h)))
  refine ⟨hc, ?_⟩
  have hs : start source args =
      Event.tempDirCreated :: (commandBody source pa c).1 ++
        [Event.tempDirReleased, (commandBody source pa c).2.toEvent] := by
    simp [start, hparse, hcmd, withTempDir]
  rw [hs]
  intro hmem
  rcases List.mem_cons.mp hmem with h | hmem2
  · exact Event.noConfusion h
  rcases List.mem_append.mp hmem2 with h | hmem3
  · exact marker_not_in_body source pa c hc h
  rcases List.mem_cons.mp hmem3 with h | hmem4
  · exact Event.noConfusion h
  rcases List.mem_cons.mp hmem4 with h | hmem5
  · cases ht : (commandBody source pa c).2 with
    | exit code => rw [ht] at h; exact Event.noConfusion h
    | raise msg => rw [ht] at h; exact Event.noConfusion h
  · exact List.not_mem_nil _ hmem5

/-- Witness for C9 on an accepted `read` invocation. -/
theorem unexpected_command_unreachable_witness :
    ("read" = "spec" ∨ "read" = "check" ∨ "read" = "discover" ∨ "read" = "read") ∧
    Event.unexpectedCommandReached ∉
      start demoSource ["read", "--config", "a", "--catalog", "b"] :=
  unexpected_command_unreachable demoSource ["read", "--config", "a", "--catalog", "b"]
    { command := some "read", config := some "a", catalog := some "b" } "read" rfl rfl

/-- Claim C10: when the dynamically loaded implementation's constructed
instance is not a `Source`, `main` raises before any dispatch: the whole
observable behaviour is the single raised exception — no argument-parsing
outcome, no protocol message, no configuration read, and no command scope is
ever entered, for every argument vector. -/
theorem non_source_rejected (lo : LoadedImplementation) (argv : List String)
    (h : lo.isSource = false) :
    main lo argv =
      [Event.raised "Source implementation provided does not implement Source class!"] ∧
    (∀ m, Event.emitted m ∉ main lo argv) ∧
    Event.usageErrorExit ∉ main lo argv ∧
    (∀ p, Event.configRead p ∉ main lo argv) ∧
    Event.tempDirCreated ∉ main lo argv := by
  have hs : main lo argv =
      [Event.raised "Source implementation provided does not implement Source class!"] := by
    simp [main, h]
  refine ⟨hs, ?_, ?_, ?_, ?_⟩
  · intro m; rw [hs]; simp
  · rw [hs]; simp
  · intro p; rw [hs]; simp
  · rw [hs]; simp

/-- Witness for C10: a rejected implementation with the `check` argument
vector still yields only the raised exception. -/
theorem non_source_rejected_witness :
    main { isSource := false, asSource := demoSource } ["check", "--config", "c"] =
      [Event.raised "Source implementation provided does not implement Source class!"] ∧
    (∀ m, Event.emitted m ∉
      main { isSource := false, asSource := demoSource } ["check", "--config", "c"]) ∧
    Event.usageErrorExit ∉
      main { isSource := false, asSource := demoSource } ["check", "--config", "c"] ∧
    (∀ p, Event.configRead p ∉
      main { isSource := false, asSource := demoSource } ["check", "--config", "c"]) ∧
    Event.tempDirCreated ∉
      main { isSource := false, asSource := demoSource } ["check", "--config", "c"] :=
  non_source_rejected { isSource := false, asSource := demoSource }
    ["check", "--config", "c"] rfl

end Spec2Proof
